import Mathlib

/-!
# Segment storage: a shallow embedding of `internal/storage/segment.go`

The storage layer talks to a relational database through `database/sql`.  The
`segments` table is embedded as a list of rows (table order = list order), every
SQL statement the Go code issues is a constructor of `Stmt` whose meaning on the
table is given by `Stmt.rows` (queries) and `Stmt.apply` (writes), and every call
of the driver that can fail takes its failure from a `Driver` value, so that each
`if err != nil` branch of the source is present in the embedding.  A healthy
driver (`Driver.healthy`) never fails.

Every operation returns the Go result together with the database afterwards; the
database carries the log of what was sent to it.

The squirrel builders (`sq.Insert`, `sq.Select`, `sq.Update`) fail in `ToSql` only
when the table, the columns, the values or the `SET` clauses are missing.  Every
builder of `segment.go` is complete and fixed, so the branch after `ToSql` is never
taken and the statements are embedded already built.

The schema is not part of the sources: the table is any list of rows, and a
theorem that needs an id to name one row says so in a hypothesis.
-/

namespace Storage

/-! ## Go errors -/

/-- A Go `error` value: `new` is `errors.New` (a sentinel), `driver` is an error
value made by the database driver (never identical to a sentinel), `errorf` is
`fmt.Errorf` without `%w` (the operands are only printed), `wrapf` is
`fmt.Errorf` with one `%w` operand, kept as `inner`. -/
inductive GoError where
  | new (text : String)
  | driver (text : String)
  | errorf (text : String)
  | wrapf (text : String) (inner : GoError)
deriving DecidableEq, Repr

/-- The method `Error()`: the message. -/
def GoError.Error : GoError → String
  | .new t => t
  | .driver t => t
  | .errorf t => t
  | .wrapf t _ => t

/-- The function `errors.Is(e, target)`: walks the `%w` chain. -/
def GoError.Is : GoError → GoError → Bool
  | .wrapf t inner, target => decide (GoError.wrapf t inner = target) || inner.Is target
  | e, target => decide (e = target)

/-- The sentinel `sql.ErrNoRows` of `database/sql`. -/
def ErrNoRows : GoError := .new "sql: no rows in result set"

/-- Modelled from the spec: the sentinel `storage.ErrNotValid` is declared outside
the files under src; the spec calls it `ValidationError` (bad input before any
I/O).  Only its identity matters, its text is a placeholder. -/
def ErrNotValid : GoError := .new "not valid"

/-! ## Entities -/

/-- The type `uuid.UUID`, as the number its 16 bytes spell. -/
abbrev UUID := Nat

/-- The constant `uuid.Nil`. -/
def UUID.Nil : UUID := 0

/-- The type `time.Time`, as an instant; `0` is the zero value. -/
abbrev Time := Nat

/-- The struct `entity.Segment`.  The percentage is a `uint8` in the source (the
storage code calls the field `AutoUserPrc`), so it is never negative. -/
structure Segment where
  ID : UUID
  Title : String
  Description : String
  AutoUserPrc : Nat
  CreatedAt : Time
  UpdatedAt : Time
  DeletedAt : Time
  IDSegment : Int
deriving DecidableEq, Repr

/-- The zero value of `entity.Segment` (`var segment entity.Segment`). -/
def Segment.zero : Segment := ⟨UUID.Nil, "", "", 0, 0, 0, 0, 0⟩

/-- Modelled from the spec: the method `entity.Segment.Validate` is declared
outside the files under src.  The spec's data model gives the invariants it
checks: the title is non-empty and the percentage is within [0,100]. -/
def Segment.Validate (s : Segment) : Option GoError :=
  if s.Title = "" then some (.errorf "title is empty")
  else if 100 < s.AutoUserPrc then some (.errorf "auto user percentage out of range")
  else none

/-- Modelled from the spec: the struct `entity.Subscription` is declared outside
the files under src; it references a set of segment titles, and `TitleSegment` is
the only field `GetIDForSegment` reads. -/
structure Subscription where
  TitleSegment : List String
deriving DecidableEq, Repr

/-! ## The database -/

/-- A row of the `segments` table; `delete_at` is the only nullable column. -/
structure Row where
  id : UUID
  title : String
  description : String
  auto_user_prc : Nat
  create_at : Time
  update_at : Time
  delete_at : Option Time
deriving DecidableEq, Repr

/-- The SQL statements `segment.go` builds, with their arguments bound. -/
inductive Stmt where
  /-- The statement `INSERT INTO segments (id,title,description,auto_user_prc,create_at,update_at)
  VALUES ($1,$2,$3,$4,$5,$6) RETURNING id` -/
  | insertSegment (id : UUID) (title description : String) (prc : Nat) (create update : Time)
  /-- The statement `SELECT id, title, description, auto_user_prc, create_at, update_at
  FROM segments WHERE id = $1` -/
  | selectByID (id : UUID)
  /-- The statement `SELECT id, title, description, auto_user_prc, create_at, update_at
  FROM segments WHERE delete_at IS NULL` -/
  | selectLive
  /-- The statement `UPDATE segments SET delete_at = $1 WHERE (id = $2 AND delete_at IS NULL)` -/
  | markDeleted (t : Time) (id : UUID)
  /-- The statement `SELECT EXISTS(SELECT 1 FROM segments WHERE id=$1)` -/
  | existsByID (id : UUID)
  /-- The statement `UPDATE segments SET title = $1, description = $2, auto_user_prc = $3
  WHERE (id = $4 AND delete_at IS NULL)` -/
  | updateSegment (title description : String) (prc : Nat) (id : UUID)
  /-- The statement `SELECT id FROM segments WHERE title=ANY($1)` -/
  | selectIDsByTitle (titles : List String)
deriving DecidableEq, Repr

/-- What reaches the database, in order. -/
inductive Event where
  | begin
  | stmt (s : Stmt)
  | commit
  | rollback
deriving DecidableEq, Repr

/-- The database: the `segments` table and the log of what was sent to it. -/
structure DB where
  segments : List Row
  log : List Event
deriving DecidableEq, Repr

/-- The failures the driver injects, one field per fallible call of `database/sql`
the code makes; `none` means the call works. -/
structure Driver where
  beginErr : Option String
  queryErr : Option String
  scanErr : Option String
  rowsErr : Option String
  execErr : Option String
  affectedErr : Option String
  commitErr : Option String
deriving DecidableEq, Repr

/-- A driver that never fails. -/
def Driver.healthy : Driver := ⟨none, none, none, none, none, none, none⟩

/-- The rows a statement selects from the table: the rows matching the `WHERE`
clause of a `SELECT` (for `SELECT EXISTS`, of the inner one), the inserted row for
the `RETURNING` clause of the insert, none for an `UPDATE`. -/
def Stmt.rows : Stmt → List Row → List Row
  | .selectByID id, t => t.filter (fun r => decide (r.id = id))
  | .selectLive, t => t.filter (fun r => decide (r.delete_at = none))
  | .selectIDsByTitle titles, t => t.filter (fun r => decide (r.title ∈ titles))
  | .existsByID id, t => t.filter (fun r => decide (r.id = id))
  | .insertSegment id title description prc create update, _ =>
      [⟨id, title, description, prc, create, update, none⟩]
  | _, _ => []

/-- The table after a statement (a query leaves it as it is).  The column
`delete_at` is not in the insert's column list and takes its default, NULL. -/
def Stmt.apply : Stmt → List Row → List Row
  | .insertSegment id title description prc create update, t =>
      t ++ [⟨id, title, description, prc, create, update, none⟩]
  | .markDeleted ts id, t =>
      t.map (fun r => if r.id = id ∧ r.delete_at = none then { r with delete_at := some ts } else r)
  | .updateSegment title description prc id, t =>
      t.map (fun r => if r.id = id ∧ r.delete_at = none then
        { r with title := title, description := description, auto_user_prc := prc } else r)
  | _, t => t

/-- The number of rows a write touches (`sql.Result.RowsAffected`). -/
def Stmt.affected : Stmt → List Row → Nat
  | .insertSegment _ _ _ _ _ _, _ => 1
  | .markDeleted _ id, t => (t.filter (fun r => decide (r.id = id ∧ r.delete_at = none))).length
  | .updateSegment _ _ _ id, t =>
      (t.filter (fun r => decide (r.id = id ∧ r.delete_at = none))).length
  | _, _ => 0

/-- The database with one more event in its log. -/
def DB.sent (db : DB) (e : Event) : DB := ⟨db.segments, db.log ++ [e]⟩

/-! ## The calls of `database/sql` -/

/-- The calls `QueryContext` and `QueryRowContext`: the statement is sent; unless
the driver fails it runs (an insert with `RETURNING` writes here). -/
def DB.QueryContext (drv : Driver) (db : DB) (q : Stmt) : Option GoError × DB :=
  match drv.queryErr with
  | some e => (some (.driver e), db.sent (.stmt q))
  | none => (none, ⟨q.apply db.segments, db.log ++ [.stmt q]⟩)

/-- The call `ExecContext`: the statement is sent; unless the driver fails it runs
and the result carries the number of rows affected. -/
def DB.ExecContext (drv : Driver) (db : DB) (q : Stmt) : Except GoError Nat × DB :=
  match drv.execErr with
  | some e => (.error (.driver e), db.sent (.stmt q))
  | none => (.ok (q.affected db.segments), ⟨q.apply db.segments, db.log ++ [.stmt q]⟩)

/-- The method `(*sql.Row).Scan` on the result set of a `QueryRowContext`: the
error of the query if it had one, `sql.ErrNoRows` on an empty result set,
otherwise the first row. -/
def scanRow {α : Type} (drv : Driver) (qerr : Option GoError) (result : List α) :
    Except GoError α :=
  match qerr with
  | some e => .error e
  | none =>
    match result with
    | [] =>
      match drv.rowsErr with
      | some e => .error (.driver e)
      | none => .error ErrNoRows
    | a :: _ =>
      match drv.scanErr with
      | some e => .error (.driver e)
      | none => .ok a

/-- The six columns every `SELECT` of segments reads, scanned into a zero-valued
`entity.Segment`: `DeletedAt` and `IDSegment` keep their zero value. -/
def Row.toSegment (r : Row) : Segment :=
  { Segment.zero with
    ID := r.id, Title := r.title, Description := r.description,
    AutoUserPrc := r.auto_user_prc, CreatedAt := r.create_at, UpdatedAt := r.update_at }

/-! ## The storage operations -/

/-- The method `(*Storage).CreateSegment`. -/
def CreateSegment (drv : Driver) (db : DB) (segment : Segment) :
    (UUID × Option GoError) × DB :=
  match segment.Validate with
  | some err => ((UUID.Nil, some (.wrapf (ErrNotValid.Error ++ ": " ++ err.Error) ErrNotValid)), db)
  | none =>
    let query := Stmt.insertSegment segment.ID segment.Title segment.Description
      segment.AutoUserPrc segment.CreatedAt segment.UpdatedAt
    let (qerr, db1) := db.QueryContext drv query
    match scanRow drv qerr ((query.rows db.segments).map (fun r => r.id)) with
    | .error err => ((UUID.Nil, some (.errorf ("error from CreateSegment " ++ err.Error))), db1)
    | .ok id => ((id, none), db1)

/-- The method `(*Storage).GetSegment`. -/
def GetSegment (drv : Driver) (db : DB) (id : UUID) :
    (Option Segment × Option GoError) × DB :=
  let query := Stmt.selectByID id
  let (qerr, db1) := db.QueryContext drv query
  match scanRow drv qerr ((query.rows db.segments).map Row.toSegment) with
  | .error err =>
    if err = ErrNoRows then
      ((none, some (.errorf ("err not rows " ++ err.Error))), db1)
    else
      ((none, some (.errorf ("error from GetSegment " ++ err.Error))), db1)
  | .ok segment => ((some segment, none), db1)

/-- The loop `for rows.Next()` of `ListSegments`: scans row after row and appends
to `segments`; a failing `Scan` ends the call. -/
def ListSegments.loop (drv : Driver) : List Row → List Segment → Except GoError (List Segment)
  | [], segments => .ok segments
  | r :: rest, segments =>
    match drv.scanErr with
    | some e => .error (.errorf ("error from ListSegments " ++ e))
    | none => ListSegments.loop drv rest (segments ++ [r.toSegment])

/-- The method `(*Storage).ListSegments`; the nil slice is the empty list. -/
def ListSegments (drv : Driver) (db : DB) : (List Segment × Option GoError) × DB :=
  let query := Stmt.selectLive
  let (qerr, db1) := db.QueryContext drv query
  match qerr with
  | some err => (([], some (.errorf ("error for query " ++ err.Error))), db1)
  | none =>
    match ListSegments.loop drv (query.rows db.segments) [] with
    | .error err => (([], some err), db1)
    | .ok segments =>
      match drv.rowsErr with
      | some e => (([], some (.errorf ("error for rows " ++ e))), db1)
      | none => ((segments, none), db1)

/-- The method `(*Storage).DeleteSegment`; `t` is what `time.Now()` returns. -/
def DeleteSegment (drv : Driver) (db : DB) (t : Time) (id : UUID) : Option GoError × DB :=
  let query := Stmt.markDeleted t id
  let (res, db1) := db.ExecContext drv query
  match res with
  | .error err => (some (.wrapf ("error from DeleteSegment " ++ err.Error) err), db1)
  | .ok affected =>
    match drv.affectedErr with
    | some e => (some (.errorf ("error from DeleteSegment " ++ e)), db1)
    | none =>
      if affected = 0 then
        (some (.errorf "no rows affected: segment not found or already deleted"), db1)
      else (none, db1)

/-- The deferred function of `UpDateSegment`: with an error the transaction is
rolled back (the error of `Rollback` is dropped) and the table is what it was at
`BeginTx`; without one it is committed and the error of `Commit`, if any, becomes
the result. -/
def UpDateSegment.deferred (drv : Driver) (snapshot : List Row) (tx : DB)
    (err : Option GoError) : Option GoError × DB :=
  match err with
  | some e => (some e, ⟨snapshot, tx.log ++ [.rollback]⟩)
  | none =>
    match drv.commitErr with
    | some c => (some (.driver c), ⟨snapshot, tx.log ++ [.commit]⟩)
    | none => (none, ⟨tx.segments, tx.log ++ [.commit]⟩)

/-- The method `(*Storage).UpDateSegment`. -/
def UpDateSegment (drv : Driver) (db : DB) (segment : Segment) : Option GoError × DB :=
  match drv.beginErr with
  | some e => (some (.errorf ("begin tx: " ++ e)), db)
  | none =>
    let tx := db.sent .begin
    let check := Stmt.existsByID segment.ID
    let (qerr, tx1) := tx.QueryContext drv check
    match scanRow drv qerr [!(check.rows tx.segments).isEmpty] with
    | .error err =>
      UpDateSegment.deferred drv db.segments tx1
        (some (.wrapf ("check segment existence: " ++ err.Error) err))
    | .ok found =>
      if !found then
        UpDateSegment.deferred drv db.segments tx1
          (some (.errorf ("segment id " ++ toString segment.ID ++ " does not exist")))
      else
        let query := Stmt.updateSegment segment.Title segment.Description
          segment.AutoUserPrc segment.ID
        let (res, tx2) := tx1.ExecContext drv query
        match res with
        | .error err =>
          UpDateSegment.deferred drv db.segments tx2
            (some (.wrapf ("update segment: " ++ err.Error) err))
        | .ok _ => UpDateSegment.deferred drv db.segments tx2 none

/-- The loop `for rows.Next()` of `GetIDForSegment`. -/
def GetIDForSegment.loop (drv : Driver) : List Row → List UUID → Except GoError (List UUID)
  | [], id => .ok id
  | r :: rest, id =>
    match drv.scanErr with
    | some e => .error (.wrapf ("error scanning segment: " ++ e) (.driver e))
    | none => GetIDForSegment.loop drv rest (id ++ [r.id])

/-- The method `(*Storage).GetIDForSegment`; `db` is the database as the open
transaction `tx` sees it. -/
def GetIDForSegment (drv : Driver) (db : DB) (sub : Subscription) :
    (List UUID × Option GoError) × DB :=
  let query := Stmt.selectIDsByTitle sub.TitleSegment
  let (qerr, db1) := db.QueryContext drv query
  match qerr with
  | some err => (([], some (.wrapf ("error selecting segment: " ++ err.Error) err)), db1)
  | none =>
    match GetIDForSegment.loop drv (query.rows db.segments) [] with
    | .error err => (([], some err), db1)
    | .ok id =>
      match drv.rowsErr with
      | some e => (([], some (.wrapf ("failed to iterate rows: " ++ e) (.driver e))), db1)
      | none => ((id, none), db1)

/-! ## Sample data -/

/-- A live segment row with id 1, titled "A", at 50 percent. -/
def rowA : Row := ⟨1, "A", "first", 50, 10, 10, none⟩

/-- A second live row, id 2. -/
def rowB : Row := ⟨2, "B", "second", 20, 11, 11, none⟩

/-- The row `rowA` after a soft delete at instant 30. -/
def rowAdeleted : Row := ⟨1, "A", "first", 50, 10, 10, some 30⟩

/-- A database holding the two live rows and an empty log. -/
def dbAB : DB := ⟨[rowA, rowB], []⟩

/-- A database whose first segment is soft-deleted. -/
def dbDeleted : DB := ⟨[rowAdeleted, rowB], []⟩

/-- A segment a handler would pass to `CreateSegment`, with the percentage 101. -/
def segmentOver : Segment := ⟨3, "C", "third", 101, 12, 12, 0, 0⟩

/-- A valid segment with a fresh id. -/
def segmentC : Segment := ⟨3, "C", "third", 75, 12, 12, 0, 0⟩

/-- New values for the segment with id 1. -/
def segmentA2 : Segment := ⟨1, "A2", "renamed", 60, 99, 99, 0, 0⟩

/-- New values for a segment with id 9, which no row of the samples has. -/
def segment9 : Segment := ⟨9, "Z", "none", 5, 0, 0, 0, 0⟩

/-! ## Lemmas on the embedding -/

/-- The scan loop with a working `Scan` appends every row. -/
theorem ListSegments.loop_healthy (drv : Driver) (h : drv.scanErr = none) (rows : List Row)
    (acc : List Segment) :
    ListSegments.loop drv rows acc = .ok (acc ++ rows.map Row.toSegment) := by
  induction rows generalizing acc with
  | nil => simp [ListSegments.loop]
  | cons r rest ih => simp [ListSegments.loop, h, ih]

/-- The scan loop, when it ends without error, has appended every row. -/
theorem ListSegments.loop_ok (drv : Driver) (rows : List Row) (acc out : List Segment)
    (h : ListSegments.loop drv rows acc = .ok out) : out = acc ++ rows.map Row.toSegment := by
  induction rows generalizing acc with
  | nil => simpa [ListSegments.loop] using h.symm
  | cons r rest ih =>
    cases hs : drv.scanErr with
    | some e => simp [ListSegments.loop, hs] at h
    | none =>
      simp only [ListSegments.loop, hs] at h
      simpa using ih _ h


/-- The two messages of `GetSegment` differ whatever is printed after them. -/
theorem notFound_text_ne (a b : String) :
    "err not rows " ++ a ≠ "error from GetSegment " ++ b := by
  intro h
  have h2 := congrArg String.data h
  simp only [String.data_append] at h2
  have h3 := congrArg (fun l => l.get? 3) h2
  simp at h3

/-! ## Claims -/

/-- C1: a segment whose auto-user percentage is outside [0,100] (the field is
unsigned, so above 100) is rejected by `CreateSegment` whatever the driver and
the database: the result is `uuid.Nil` with an error that wraps `ErrNotValid`, and
the database is returned as it was, table and log, so no statement was issued. -/
theorem CreateSegment_percentage_out_of_range (drv : Driver) (db : DB) (segment : Segment)
    (h : 100 < segment.AutoUserPrc) :
    ∃ err, CreateSegment drv db segment = ((UUID.Nil, some err), db) ∧
      err.Is ErrNotValid = true := by
  obtain ⟨e, he⟩ : ∃ e, segment.Validate = some e := by
    unfold Segment.Validate
    split_ifs <;> simp
  refine ⟨.wrapf (ErrNotValid.Error ++ ": " ++ e.Error) ErrNotValid, ?_, ?_⟩
  · simp [CreateSegment, he]
  · simp [GoError.Is, ErrNotValid]

/-- Witness of C1 at the sample segment with percentage 101. -/
theorem CreateSegment_percentage_out_of_range_witness :
    100 < segmentOver.AutoUserPrc ∧
      ∃ err, CreateSegment Driver.healthy dbAB segmentOver = ((UUID.Nil, some err), dbAB) ∧
        err.Is ErrNotValid = true :=
  ⟨by decide, CreateSegment_percentage_out_of_range Driver.healthy dbAB segmentOver (by decide)⟩

/-- C2, the code at the failing input: on the two-row sample `DeleteSegment` of
id 1 succeeds and the following `GetSegment` of id 1 returns the segment with no
error, because its `SELECT` has no `delete_at IS NULL` condition. -/
theorem GetSegment_after_DeleteSegment_returns_row :
    (DeleteSegment Driver.healthy dbAB 30 1).1 = none ∧
      (GetSegment Driver.healthy (DeleteSegment Driver.healthy dbAB 30 1).2 1).1
        = (some ⟨1, "A", "first", 50, 10, 10, 0, 0⟩, none) := by
  decide

/-- After the soft-delete `UPDATE` no live row has the id. -/
theorem markDeleted_no_live (t : Time) (id : UUID) (rows : List Row) :
    ∀ r ∈ (Stmt.markDeleted t id).apply rows, r.delete_at = none → r.id ≠ id := by
  intro r hr hnone hid
  simp only [Stmt.apply, List.mem_map] at hr
  obtain ⟨r0, -, h0⟩ := hr
  split_ifs at h0 with hc
  · subst h0; simp at hnone
  · subst h0; exact hc ⟨hid, hnone⟩

/-- A `DeleteSegment` that returns no error has run its `UPDATE`. -/
theorem DeleteSegment_ok_segments (drv : Driver) (db db1 : DB) (t : Time) (id : UUID)
    (h : DeleteSegment drv db t id = (none, db1)) :
    db1.segments = (Stmt.markDeleted t id).apply db.segments := by
  unfold DeleteSegment DB.ExecContext at h
  cases he : drv.execErr with
  | some e => simp [he] at h
  | none =>
    cases ha : drv.affectedErr with
    | some e => simp [he, ha] at h
    | none =>
      simp only [he, ha] at h
      split_ifs at h with hz
      · simp at h
      · simp only [Prod.mk.injEq, true_and] at h
        rw [← h]

/-- A `ListSegments` that returns no error returns the live rows. -/
theorem ListSegments_ok (drv : Driver) (db db1 : DB) (segs : List Segment)
    (h : ListSegments drv db = ((segs, none), db1)) :
    segs = (db.segments.filter (fun r => decide (r.delete_at = none))).map Row.toSegment := by
  unfold ListSegments DB.QueryContext at h
  cases hq : drv.queryErr with
  | some e => simp [hq] at h
  | none =>
    simp only [hq] at h
    cases hl : ListSegments.loop drv (Stmt.selectLive.rows db.segments) [] with
    | error e => simp [hl, Stmt.apply] at h
    | ok out =>
      have := ListSegments.loop_ok drv _ _ _ hl
      cases hr : drv.rowsErr with
      | some e => simp [hl, hr, Stmt.apply] at h
      | none =>
        simp [hl, hr, Stmt.apply] at h
        rw [← h.1, this]
        simp [Stmt.rows]


/-- C3: with a healthy driver `ListSegments` returns exactly the rows whose
`delete_at` is NULL, in table order, each scanned into an entity, and sends one
`SELECT`; with any driver a call that returns no error returns that same list; and
after a successful `DeleteSegment` of `id` no entity a `ListSegments` returns has
that id. -/
theorem ListSegments_returns_live_rows (db : DB) :
    ListSegments Driver.healthy db =
        (((db.segments.filter (fun r => decide (r.delete_at = none))).map Row.toSegment, none),
          db.sent (.stmt .selectLive)) ∧
      (∀ drv segs db1, ListSegments drv db = ((segs, none), db1) →
        segs = (db.segments.filter (fun r => decide (r.delete_at = none))).map Row.toSegment) ∧
      (∀ drv drv2 t id db1, DeleteSegment drv db t id = (none, db1) →
        ∀ s ∈ (ListSegments drv2 db1).1.1, s.ID ≠ id) := by
  refine ⟨?_, ?_, ?_⟩
  · simp [ListSegments, DB.QueryContext, Driver.healthy, ListSegments.loop_healthy, Stmt.rows,
      Stmt.apply, DB.sent]
  · intro drv segs db1 h
    exact ListSegments_ok drv db db1 segs h
  · intro drv drv2 t id db1 hdel s hs
    have hseg := DeleteSegment_ok_segments drv db db1 t id hdel
    cases hres : ListSegments drv2 db1 with
    | mk res db2 =>
      obtain ⟨segs, err⟩ := res
      rw [hres] at hs
      simp only at hs
      cases err with
      | some e =>
        have : segs = [] := by
          unfold ListSegments DB.QueryContext at hres
          cases hq : drv2.queryErr <;> simp only [hq] at hres
          · cases hl : ListSegments.loop drv2 (Stmt.selectLive.rows db1.segments) [] <;>
              simp only [hl] at hres
            · simp at hres; exact hres.1.1
            · cases hr : drv2.rowsErr <;> simp [hr] at hres
              exact hres.1.1
          · simp at hres; exact hres.1.1
        simp [this] at hs
      | none =>
        have := ListSegments_ok drv2 db1 db2 segs hres
        rw [this] at hs
        simp only [List.mem_map, List.mem_filter, decide_eq_true_eq] at hs
        obtain ⟨r, ⟨hr, hnone⟩, rfl⟩ := hs
        rw [hseg] at hr
        exact markDeleted_no_live t id db.segments r hr hnone

/-- Witness of C3: the list of the sample with a soft-deleted row, and the list
after deleting id 1 from the two-row sample. -/
theorem ListSegments_returns_live_rows_witness :
    (ListSegments Driver.healthy dbDeleted).1 = ([rowB.toSegment], none) ∧
      ∀ s ∈ (ListSegments Driver.healthy (DeleteSegment Driver.healthy dbAB 30 1).2).1.1,
        s.ID ≠ 1 :=
  ⟨by rw [(ListSegments_returns_live_rows dbDeleted).1]; decide,
   (ListSegments_returns_live_rows dbAB).2.2 Driver.healthy Driver.healthy 30 1 _ (by decide)⟩


/-- The existence check finds nothing exactly when no row has the id. -/
theorem existsByID_rows_nil (id : UUID) (rows : List Row) (h : ∀ r ∈ rows, r.id ≠ id) :
    (Stmt.existsByID id).rows rows = [] := by
  simp only [Stmt.rows, List.filter_eq_nil_iff, decide_eq_true_eq]
  exact h

/-- The existence check finds a row when one has the id. -/
theorem existsByID_rows_ne_nil (id : UUID) (rows : List Row) (r : Row) (hr : r ∈ rows)
    (hid : r.id = id) : ((Stmt.existsByID id).rows rows).isEmpty = false := by
  cases hrows : (Stmt.existsByID id).rows rows with
  | nil =>
    simp only [Stmt.rows, List.filter_eq_nil_iff, decide_eq_true_eq] at hrows
    exact absurd hid (hrows r hr)
  | cons a l => rfl

/-- An `UPDATE` whose condition no row meets leaves the table as it is. -/
theorem updateSegment_apply_none (title description : String) (prc : Nat) (id : UUID)
    (rows : List Row) (h : ∀ r ∈ rows, r.id = id → r.delete_at ≠ none) :
    (Stmt.updateSegment title description prc id).apply rows = rows := by
  simp only [Stmt.apply]
  conv_rhs => rw [← List.map_id rows]
  apply List.map_congr_left
  intro r hr
  have : ¬ (r.id = id ∧ r.delete_at = none) := fun hc => h r hr hc.1 hc.2
  simp [this]

/-- C4: when no row has the segment's id, `UpDateSegment` returns an error and the
table is what it was, whatever the driver; the log shows what was sent: nothing
when `BeginTx` itself failed, otherwise the begin, the existence check and the
rollback, and in neither case an `UPDATE`. -/
theorem UpDateSegment_missing_id (drv : Driver) (db : DB) (segment : Segment)
    (h : ∀ r ∈ db.segments, r.id ≠ segment.ID) :
    ∃ err, UpDateSegment drv db segment =
      (some err, ⟨db.segments, db.log ++
        (if drv.beginErr = none then
          [Event.begin, Event.stmt (Stmt.existsByID segment.ID), Event.rollback]
        else [])⟩) := by
  unfold UpDateSegment
  cases hb : drv.beginErr with
  | some e => exact ⟨.errorf ("begin tx: " ++ e), by simp⟩
  | none =>
    have hnil := existsByID_rows_nil segment.ID db.segments h
    cases hq : drv.queryErr with
    | some e =>
      exact ⟨.wrapf ("check segment existence: " ++ e) (.driver e),
        by simp [DB.QueryContext, hq, scanRow, UpDateSegment.deferred, DB.sent, GoError.Error]⟩
    | none =>
      cases hs : drv.scanErr with
      | some e =>
        exact ⟨.wrapf ("check segment existence: " ++ e) (.driver e),
          by simp [DB.QueryContext, hq, hs, scanRow, UpDateSegment.deferred, DB.sent,
            GoError.Error]⟩
      | none =>
        exact ⟨.errorf ("segment id " ++ toString segment.ID ++ " does not exist"),
          by simp [DB.QueryContext, hq, hs, scanRow, UpDateSegment.deferred, DB.sent,
            hnil, Stmt.apply]⟩

/-- Witness of C4: id 9 on the two-row sample. -/
theorem UpDateSegment_missing_id_witness :
    (∀ r ∈ dbAB.segments, r.id ≠ segment9.ID) ∧
      ∃ err, UpDateSegment Driver.healthy dbAB segment9 =
        (some err, ⟨dbAB.segments, dbAB.log ++
          (if Driver.healthy.beginErr = none then
            [Event.begin, Event.stmt (Stmt.existsByID segment9.ID), Event.rollback]
          else [])⟩) :=
  ⟨by decide, UpDateSegment_missing_id Driver.healthy dbAB segment9 (by decide)⟩

/-- C10: when the segment's id is the id of a soft-deleted row (and of no other
row), `UpDateSegment` with a healthy driver passes the existence check, sends the
`UPDATE`, commits and returns no error, and the table is exactly what it was. -/
theorem UpDateSegment_soft_deleted_noop (db : DB) (segment : Segment) (r : Row)
    (hr : r ∈ db.segments) (hid : r.id = segment.ID) (hdel : r.delete_at ≠ none)
    (hkey : ∀ r2 ∈ db.segments, r2.id = segment.ID → r2 = r) :
    UpDateSegment Driver.healthy db segment =
      (none, ⟨db.segments, db.log ++
        [Event.begin, Event.stmt (Stmt.existsByID segment.ID),
          Event.stmt (Stmt.updateSegment segment.Title segment.Description
            segment.AutoUserPrc segment.ID),
          Event.commit]⟩) := by
  have hne := existsByID_rows_ne_nil segment.ID db.segments r hr hid
  have hsame := updateSegment_apply_none segment.Title segment.Description
    segment.AutoUserPrc segment.ID db.segments
    (fun r2 h2 h3 => by rw [hkey r2 h2 h3]; exact hdel)
  have hcheck : (Stmt.existsByID segment.ID).apply db.segments = db.segments := rfl
  simp [UpDateSegment, Driver.healthy, DB.QueryContext, DB.ExecContext, scanRow,
    UpDateSegment.deferred, DB.sent, hne, hsame, hcheck]

/-- Witness of C10: new values for id 1 on the sample whose row 1 is soft-deleted. -/
theorem UpDateSegment_soft_deleted_noop_witness :
    UpDateSegment Driver.healthy dbDeleted segmentA2 =
      (none, ⟨dbDeleted.segments, dbDeleted.log ++
        [Event.begin, Event.stmt (Stmt.existsByID segmentA2.ID),
          Event.stmt (Stmt.updateSegment segmentA2.Title segmentA2.Description
            segmentA2.AutoUserPrc segmentA2.ID),
          Event.commit]⟩) :=
  UpDateSegment_soft_deleted_noop dbDeleted segmentA2 rowAdeleted (by decide) (by decide)
    (by decide) (by decide)

/-- C5: when a live row has the segment's id, a call of `UpDateSegment` that
returns no error leaves a table in which every live row with that id has the
segment's title, description and percentage and its own id, creation timestamp,
update timestamp and deletion timestamp, and every other row is as it was; with a
healthy driver the call does return no error. -/
theorem UpDateSegment_existing (drv : Driver) (db db1 : DB) (segment : Segment)
    (hex : ∃ r ∈ db.segments, r.id = segment.ID ∧ r.delete_at = none)
    (hok : UpDateSegment drv db segment = (none, db1)) :
    db1.segments = db.segments.map (fun r =>
        if r.id = segment.ID ∧ r.delete_at = none then
          ⟨r.id, segment.Title, segment.Description, segment.AutoUserPrc,
            r.create_at, r.update_at, r.delete_at⟩
        else r) ∧
      (UpDateSegment Driver.healthy db segment).1 = none := by
  obtain ⟨r, hr, hid, -⟩ := hex
  have hne := existsByID_rows_ne_nil segment.ID db.segments r hr hid
  constructor
  · unfold UpDateSegment at hok
    cases hb : drv.beginErr with
    | some e => simp [hb] at hok
    | none =>
      cases hq : drv.queryErr with
      | some e => simp [hb, hq, DB.QueryContext, scanRow, UpDateSegment.deferred] at hok
      | none =>
        cases hs : drv.scanErr with
        | some e => simp [hb, hq, hs, DB.QueryContext, scanRow, UpDateSegment.deferred] at hok
        | none =>
          cases he : drv.execErr with
          | some e =>
            simp [hb, hq, hs, he, DB.QueryContext, DB.ExecContext, scanRow,
              UpDateSegment.deferred, DB.sent, hne, Stmt.apply] at hok
          | none =>
            cases hc : drv.commitErr with
            | some e =>
              simp [hb, hq, hs, he, hc, DB.QueryContext, DB.ExecContext, scanRow,
                UpDateSegment.deferred, DB.sent, hne, Stmt.apply] at hok
            | none =>
              simp [hb, hq, hs, he, hc, DB.QueryContext, DB.ExecContext, scanRow,
                UpDateSegment.deferred, DB.sent, hne, Stmt.apply] at hok
              rw [← hok]
  · simp [UpDateSegment, Driver.healthy, DB.QueryContext, DB.ExecContext, scanRow,
      UpDateSegment.deferred, DB.sent, hne, Stmt.apply]

/-- Witness of C5: new values for id 1 on the two-row sample. -/
theorem UpDateSegment_existing_witness :
    (∃ r ∈ dbAB.segments, r.id = segmentA2.ID ∧ r.delete_at = none) ∧
      (UpDateSegment Driver.healthy dbAB segmentA2).2.segments = dbAB.segments.map (fun r =>
        if r.id = segmentA2.ID ∧ r.delete_at = none then
          ⟨r.id, segmentA2.Title, segmentA2.Description, segmentA2.AutoUserPrc,
            r.create_at, r.update_at, r.delete_at⟩
        else r) ∧
      (UpDateSegment Driver.healthy dbAB segmentA2).1 = none :=
  ⟨by decide, UpDateSegment_existing Driver.healthy dbAB _ segmentA2 (by decide) (by decide)⟩


/-- The count of rows the soft-delete touches is zero exactly when no live row has
the id. -/
theorem markDeleted_affected_eq_zero (t : Time) (id : UUID) (rows : List Row) :
    (Stmt.markDeleted t id).affected rows = 0 ↔
      ¬ ∃ r ∈ rows, r.id = id ∧ r.delete_at = none := by
  simp only [Stmt.affected, List.length_eq_zero, List.filter_eq_nil_iff, decide_eq_true_eq]
  constructor
  · rintro h ⟨r, hr, hc⟩
    exact h r hr hc
  · intro h r hr hc
    exact h ⟨r, hr, hc⟩

/-- A soft-delete whose condition no row meets leaves the table as it is. -/
theorem markDeleted_apply_none (t : Time) (id : UUID) (rows : List Row)
    (h : ¬ ∃ r ∈ rows, r.id = id ∧ r.delete_at = none) :
    (Stmt.markDeleted t id).apply rows = rows := by
  simp only [Stmt.apply]
  conv_rhs => rw [← List.map_id rows]
  apply List.map_congr_left
  intro r hr
  have : ¬ (r.id = id ∧ r.delete_at = none) := fun hc => h ⟨r, hr, hc⟩
  simp [this]

/-- C7: with a healthy driver `DeleteSegment` returns an error exactly when no row
has the id and a NULL `delete_at`; when it returns an error the table is what it
was; when it returns none, the live rows with the id have `delete_at` set to the
time of the call and nothing else in the table differs; and a second
`DeleteSegment` of the same id, at any time, returns an error and leaves the table
of the first call as it is, deletion timestamps included. -/
theorem DeleteSegment_contract (db : DB) (t : Time) (id : UUID) :
    ((DeleteSegment Driver.healthy db t id).1 ≠ none ↔
        ¬ ∃ r ∈ db.segments, r.id = id ∧ r.delete_at = none) ∧
      ((DeleteSegment Driver.healthy db t id).1 ≠ none →
        (DeleteSegment Driver.healthy db t id).2.segments = db.segments) ∧
      ((DeleteSegment Driver.healthy db t id).1 = none →
        (DeleteSegment Driver.healthy db t id).2.segments = db.segments.map (fun r =>
          if r.id = id ∧ r.delete_at = none then
            ⟨r.id, r.title, r.description, r.auto_user_prc, r.create_at, r.update_at, some t⟩
          else r)) ∧
      (∀ t2, (DeleteSegment Driver.healthy (DeleteSegment Driver.healthy db t id).2 t2 id).1
            ≠ none ∧
          (DeleteSegment Driver.healthy (DeleteSegment Driver.healthy db t id).2 t2 id).2.segments
            = (DeleteSegment Driver.healthy db t id).2.segments) := by
  have hseg : ∀ (d : DB) (u : Time), (DeleteSegment Driver.healthy d u id).2.segments
      = (Stmt.markDeleted u id).apply d.segments := by
    intro d u
    simp only [DeleteSegment, DB.ExecContext, Driver.healthy]
    split_ifs <;> rfl
  have herr : ∀ (d : DB) (u : Time), (DeleteSegment Driver.healthy d u id).1 ≠ none ↔
      ¬ ∃ r ∈ d.segments, r.id = id ∧ r.delete_at = none := by
    intro d u
    rw [← markDeleted_affected_eq_zero u id d.segments]
    simp only [DeleteSegment, DB.ExecContext, Driver.healthy]
    split_ifs with hz <;> simp [hz]
  refine ⟨herr db t, ?_, ?_, ?_⟩
  · intro h
    rw [hseg, markDeleted_apply_none t id db.segments ((herr db t).1 h)]
  · intro _
    rw [hseg]
    rfl
  · intro t2
    have hnone : ¬ ∃ r ∈ (DeleteSegment Driver.healthy db t id).2.segments,
        r.id = id ∧ r.delete_at = none := by
      rintro ⟨r, hr, hid, hd⟩
      rw [hseg] at hr
      exact markDeleted_no_live t id db.segments r hr hd hid
    refine ⟨(herr _ t2).2 hnone, ?_⟩
    rw [hseg _ t2, markDeleted_apply_none t2 id _ hnone]

/-- Witness of C7: deleting id 1 from the two-row sample at 30, then again at 40. -/
theorem DeleteSegment_contract_witness :
    (DeleteSegment Driver.healthy dbAB 30 1).1 = none ∧
      (DeleteSegment Driver.healthy dbAB 30 1).2.segments = [rowAdeleted, rowB] ∧
      (DeleteSegment Driver.healthy (DeleteSegment Driver.healthy dbAB 30 1).2 40 1).1 ≠ none ∧
      (DeleteSegment Driver.healthy (DeleteSegment Driver.healthy dbAB 30 1).2 40 1).2.segments
        = [rowAdeleted, rowB] :=
  ⟨by decide, by decide, ((DeleteSegment_contract dbAB 30 1).2.2.2 40).1,
    ((DeleteSegment_contract dbAB 30 1).2.2.2 40).2.trans (by decide)⟩

/-- The first row with the id heads the rows the `SELECT` by id returns. -/
theorem selectByID_rows_of_find (id : UUID) (rows : List Row) (r : Row)
    (h : rows.find? (fun x => decide (x.id = id)) = some r) :
    ∃ rest, (Stmt.selectByID id).rows rows = r :: rest := by
  induction rows with
  | nil => simp at h
  | cons a l ih =>
    by_cases ha : a.id = id
    · simp [List.find?, ha] at h
      subst h
      exact ⟨l.filter (fun x => decide (x.id = id)), by simp [Stmt.rows, List.filter_cons, ha]⟩
    · simp [List.find?, ha] at h
      obtain ⟨rest, hrest⟩ := ih h
      exact ⟨rest, by simpa [Stmt.rows, List.filter_cons, ha] using hrest⟩

/-- The not-found error of `GetSegment` is made with `%v`, so it does not wrap
`sql.ErrNoRows`: it is recognised by its message. -/
theorem GetSegment_notFound_not_wrapped :
    (GoError.errorf "err not rows sql: no rows in result set").Is ErrNoRows = false := by
  decide

/-- C8: when no row has the id, `GetSegment` with a healthy driver returns no
entity and the not-found error, whose message is "err not rows" followed by the
text of `sql.ErrNoRows`; whatever the driver, an error of `GetSegment` carries
that message exactly when the query ran and no row had the id, so it is told
apart from every driver failure; and when a row has the id, the first such row
comes back as the entity with its id, title, description, percentage, created
and updated timestamps, the other fields zero.  The table is not changed. -/
theorem GetSegment_contract (db : DB) (id : UUID) :
    ((∀ r ∈ db.segments, r.id ≠ id) →
        (GetSegment Driver.healthy db id).1 =
          (none, some (.errorf "err not rows sql: no rows in result set"))) ∧
      (∀ drv err, (GetSegment drv db id).1.2 = some err →
        (err.Error = "err not rows sql: no rows in result set" ↔
          (drv.queryErr = none ∧ drv.rowsErr = none ∧ ∀ r ∈ db.segments, r.id ≠ id))) ∧
      (∀ r, db.segments.find? (fun x => decide (x.id = id)) = some r →
        (GetSegment Driver.healthy db id).1 =
          (some ⟨r.id, r.title, r.description, r.auto_user_prc, r.create_at, r.update_at, 0, 0⟩,
            none)) ∧
      (∀ drv, (GetSegment drv db id).2.segments = db.segments) := by
  have htext : ∀ e : String, ¬ ("error from GetSegment " ++ e
      = "err not rows sql: no rows in result set") := by
    intro e h
    exact notFound_text_ne "sql: no rows in result set" e h.symm
  refine ⟨?_, ?_, ?_, ?_⟩
  · intro h
    have hnil : (Stmt.selectByID id).rows db.segments = [] := by
      simp only [Stmt.rows, List.filter_eq_nil_iff, decide_eq_true_eq]
      exact h
    simp [GetSegment, DB.QueryContext, Driver.healthy, scanRow, hnil, ErrNoRows, GoError.Error]
  · intro drv err h
    unfold GetSegment DB.QueryContext at h
    cases hq : drv.queryErr with
    | some e =>
      simp [hq, scanRow, ErrNoRows] at h
      subst h
      simp [GoError.Error, htext]
    | none =>
      cases hrows : (Stmt.selectByID id).rows db.segments with
      | nil =>
        have hno : ∀ r ∈ db.segments, r.id ≠ id := by
          simpa only [Stmt.rows, List.filter_eq_nil_iff, decide_eq_true_eq] using hrows
        cases hr : drv.rowsErr with
        | some e =>
          simp [hq, hr, hrows, scanRow, ErrNoRows] at h
          subst h
          simp [GoError.Error, htext]
        | none =>
          simp [hq, hr, hrows, scanRow, ErrNoRows] at h
          subst h
          simpa [GoError.Error] using hno
      | cons a l =>
        have hmem : a ∈ db.segments ∧ a.id = id := by
          have : a ∈ (Stmt.selectByID id).rows db.segments := by rw [hrows]; simp
          simpa [Stmt.rows] using this
        cases hs : drv.scanErr with
        | some e =>
          simp [hq, hs, hrows, scanRow, ErrNoRows] at h
          subst h
          simp only [GoError.Error, htext, false_iff, not_and]
          intro _ _ hall
          exact hall a hmem.1 hmem.2
        | none => simp [hq, hs, hrows, scanRow] at h
  · intro r hfind
    obtain ⟨rest, hrest⟩ := selectByID_rows_of_find id db.segments r hfind
    simp [GetSegment, DB.QueryContext, Driver.healthy, scanRow, hrest, Row.toSegment,
      Segment.zero, UUID.Nil]
  · intro drv
    unfold GetSegment DB.QueryContext
    cases hq : drv.queryErr with
    | some e => simp only; split <;> (try split_ifs) <;> rfl
    | none => simp only; split <;> (try split_ifs) <;> rfl

/-- Witness of C8: id 9 is not in the two-row sample, id 2 is. -/
theorem GetSegment_contract_witness :
    (GetSegment Driver.healthy dbAB 9).1 =
        (none, some (.errorf "err not rows sql: no rows in result set")) ∧
      (GetSegment Driver.healthy dbAB 2).1 = (some ⟨2, "B", "second", 20, 11, 11, 0, 0⟩, none) :=
  ⟨(GetSegment_contract dbAB 9).1 (by decide), (GetSegment_contract dbAB 2).2.2.1 rowB (by decide)⟩


/-- C9: for a segment that passes validation and a table with no row of its id,
`CreateSegment` with a healthy driver sends the one `INSERT`, appends one row with
the segment's id, title, description, percentage and timestamps and a NULL
`delete_at` after the existing rows, which are as they were, and returns the
segment's id with no error; `GetSegment` of the returned id on the resulting
database returns the entity with that id, title, description, percentage and
timestamps. -/
theorem CreateSegment_inserts (db : DB) (segment : Segment)
    (hvalid : segment.Validate = none) (hfresh : ∀ r ∈ db.segments, r.id ≠ segment.ID) :
    CreateSegment Driver.healthy db segment =
        ((segment.ID, none),
          ⟨db.segments ++ [⟨segment.ID, segment.Title, segment.Description,
              segment.AutoUserPrc, segment.CreatedAt, segment.UpdatedAt, none⟩],
            db.log ++ [Event.stmt (Stmt.insertSegment segment.ID segment.Title
              segment.Description segment.AutoUserPrc segment.CreatedAt segment.UpdatedAt)]⟩) ∧
      (GetSegment Driver.healthy (CreateSegment Driver.healthy db segment).2
          (CreateSegment Driver.healthy db segment).1.1).1 =
        (some ⟨segment.ID, segment.Title, segment.Description, segment.AutoUserPrc,
          segment.CreatedAt, segment.UpdatedAt, 0, 0⟩, none) := by
  have hcreate : CreateSegment Driver.healthy db segment =
      ((segment.ID, none),
        ⟨db.segments ++ [⟨segment.ID, segment.Title, segment.Description,
            segment.AutoUserPrc, segment.CreatedAt, segment.UpdatedAt, none⟩],
          db.log ++ [Event.stmt (Stmt.insertSegment segment.ID segment.Title
            segment.Description segment.AutoUserPrc segment.CreatedAt segment.UpdatedAt)]⟩) := by
    simp [CreateSegment, hvalid, DB.QueryContext, Driver.healthy, scanRow, Stmt.rows,
      Stmt.apply]
  refine ⟨hcreate, ?_⟩
  rw [hcreate]
  have hnil : db.segments.filter (fun r => decide (r.id = segment.ID)) = [] := by
    simp only [List.filter_eq_nil_iff, decide_eq_true_eq]
    exact hfresh
  simp [GetSegment, DB.QueryContext, Driver.healthy, scanRow, Stmt.rows, List.filter_append,
    hnil, Row.toSegment, Segment.zero, UUID.Nil]

/-- Witness of C9: the valid sample segment with id 3 on the two-row sample. -/
theorem CreateSegment_inserts_witness :
    (segmentC.Validate = none ∧ ∀ r ∈ dbAB.segments, r.id ≠ segmentC.ID) ∧
      (CreateSegment Driver.healthy dbAB segmentC).1 = (3, none) ∧
      (GetSegment Driver.healthy (CreateSegment Driver.healthy dbAB segmentC).2
          (CreateSegment Driver.healthy dbAB segmentC).1.1).1 =
        (some ⟨3, "C", "third", 75, 12, 12, 0, 0⟩, none) :=
  ⟨⟨by decide, by decide⟩,
    by rw [(CreateSegment_inserts dbAB segmentC (by decide) (by decide)).1]; rfl,
    (CreateSegment_inserts dbAB segmentC (by decide) (by decide)).2⟩

/-- C6, the code at the failing input: on the sample whose row 1, titled "A", is
soft-deleted, `GetIDForSegment` for the titles "A" and "nope" returns the id 1 with
no error, because its `SELECT` has no `delete_at IS NULL` condition. -/
theorem GetIDForSegment_returns_soft_deleted_id :
    rowAdeleted ∈ dbDeleted.segments ∧ rowAdeleted.delete_at = some 30 ∧
      (GetIDForSegment Driver.healthy dbDeleted ⟨["A", "nope"]⟩).1 = ([1], none) := by
  decide

end Storage
